import Mathlib

/-!
Verification of the OCR document-analyzer pipeline (`src/app.py`).

The embedding models the single source file `app.py`: the document record
stored in the collection, the four external adapters (image download, OCR
service, completion service for text correction, completion service for
metadata extraction) as oracles supplied by a `World`, and the functions
`analyze_document`, `process_ocr_output`, `get_metadata`,
`get_metadata_for_final_assignment`, `get_metadata_for_final_release`,
`process_document` and `process_documents` as state-threading Lean
functions.  Store writes are recorded as a trace of `$set` update
operations; adapter invocations are counted; the OCR-path temporary file
is tracked by two booleans (created / still existing at return).
-/

namespace DocAnalyzer

/-- A `{page_index: text}` single-entry dict, as produced by the OCR and
correction steps (`key = list(page.keys())[0]`, `value = list(page.values())[0]`). -/
abbrev Pair := String × String

/-- The value parsed out of the completion response by `json.loads`
(abstracted to a field map; its internal shape is irrelevant to the claims). -/
abbrev FieldMap := List (String × String)

/-- What `get_metadata` returns: `some m` when `json.loads` succeeded,
`none` for Python's implicit `None` after a `json.JSONDecodeError`. -/
abbrev MetaVal := Option FieldMap

/-- The `status` field of a document record. -/
inductive Status where
  | notprocessed
  | processing
  | processed
  | failed
deriving DecidableEq

/-- Errors raised by the external adapters and by the code itself. -/
inductive Err where
  /-- `ValueError(f"Document not found: ...")` raised by `get_metadata`. -/
  | notFound
  /-- an error raised by `get_openai_response` (completion service failure). -/
  | completion
  /-- an error raised by `httpx.get` / `response.raise_for_status()`. -/
  | transport
  /-- an error raised inside `analyze_document` (OCR service failure). -/
  | ocr
deriving DecidableEq

/-- A chat message `{"role": ..., "content": ...}`. -/
structure Message where
  role : String
  content : String
deriving DecidableEq

/-- One line of a page in the OCR service result (`line.content`). -/
structure SrvLine where
  content : String
deriving DecidableEq

/-- One page of the OCR service result: `page.page_number` (1-based in the
service contract) and `page.lines`. -/
structure SrvPage where
  page_number : Nat
  lines : List SrvLine
deriving DecidableEq

/-- A document record of the Mongo collection.  Optional fields model
presence/absence of the corresponding keys (`doc.get(...)`). -/
structure Rec where
  id : Nat
  status : Status
  image : Option String
  ocr_output : Option (List Pair)
  json_data : Option (List Pair)
  processed_date : Option String
  final_assignment : Option MetaVal
  final_release : Option MetaVal
deriving DecidableEq

/-- One `update_one(filter, {"$set": ...})` store write: each field is
`some v` when the update sets it to `v`, `none` when it leaves it alone. -/
structure UpdateSet where
  status : Option Status := none
  ocr_output : Option (List Pair) := none
  json_data : Option (List Pair) := none
  processed_date : Option String := none
  final_assignment : Option MetaVal := none
  final_release : Option MetaVal := none
deriving DecidableEq

/-- Overwrite an optional stored field when the update sets it. -/
def setField {α : Type} (u : Option α) (old : Option α) : Option α :=
  match u with
  | some v => some v
  | none => old

/-- Apply a `$set` update to a record. -/
def applyUpdate (r : Rec) (u : UpdateSet) : Rec where
  id := r.id
  status := u.status.getD r.status
  image := r.image
  ocr_output := setField u.ocr_output r.ocr_output
  json_data := setField u.json_data r.json_data
  processed_date := setField u.processed_date r.processed_date
  final_assignment := setField u.final_assignment r.final_assignment
  final_release := setField u.final_release r.final_release

/-- The `{"$set": {"status": "processing"}}` update (line 96). -/
def processingUpdate : UpdateSet := { status := some Status.processing }

/-- The `{"$set": {"status": "failed"}}` update (lines 116, 124, 162). -/
def failedUpdate : UpdateSet := { status := some Status.failed }

/-- The behaviour of the external world during one `process_document` run:
the image download, the OCR service, and the completion service.  The
completion oracles for text correction and for the two metadata schemas are
indexed by the call number of that adapter within the run, so a world can
make a first attempt fail and a retry succeed.  `parse` models `json.loads`
(`none` = `json.JSONDecodeError`), `now` the UTC timestamp taken at line 129. -/
structure World where
  /-- outcome of `httpx.get(doc["image"])` followed by `raise_for_status()`. -/
  download : Except Err Unit
  /-- outcome of the OCR service round trip inside `analyze_document`. -/
  ocrService : Except Err (List SrvPage)
  /-- `get_openai_response` for the n-th text-correction call of the run. -/
  llmCorrect : Nat → List Message → Except Err String
  /-- `get_openai_response` for the n-th final-assignment metadata attempt. -/
  faRespond : Nat → List Message → Except Err String
  /-- `get_openai_response` for the n-th final-release metadata attempt. -/
  frRespond : Nat → List Message → Except Err String
  /-- `json.loads` on a completion response body. -/
  parse : String → Option FieldMap
  /-- the ISO-8601 UTC timestamp `datetime.now(pytz.timezone('UTC')).isoformat()`. -/
  now : String

/-- Everything observable about one `process_document` run: the final store
record, the ordered trace of `$set` updates it issued, whether the temporary
file was ever created and whether it still exists at return, and the call
counts of each external adapter. -/
structure RunResult where
  stored : Rec
  trace : List UpdateSet
  tempCreated : Bool
  tempExists : Bool
  ocrCalls : Nat
  downloadCalls : Nat
  /-- the list `process_ocr_output` was invoked on, when it was invoked. -/
  correctionInput : Option (List Pair)
  correctCalls : Nat
  faCalls : Nat
  frCalls : Nat
deriving DecidableEq

/-- The pure page-extraction step of `analyze_document` (lines 54-57): one
entry per page of the service result, `{str(page.page_number - 1):
" ".join(line.content for line in page.lines)}`. -/
def extract_pages (pages : List SrvPage) : List Pair :=
  pages.map (fun page =>
    (toString (page.page_number - 1), " ".intercalate (page.lines.map (fun l => l.content))))

/-- `analyze_document` (lines 46-62): submit the file, build the per-page
list; any service error is logged and re-raised. -/
def analyze_document (service : Except Err (List SrvPage)) : Except Err (List Pair) :=
  match service with
  | Except.error e => Except.error e
  | Except.ok pages => Except.ok (extract_pages pages)

/-- The two-message prompt of `process_ocr_output` (lines 82-85). -/
def correction_messages (page_content : String) : List Message :=
  [⟨"system", "You are a helpful assistant that fixes errors in OCR outputs and provides correct data in the same JSON format."⟩,
   ⟨"user", "Fix the errors and get correct data in same JSON format:\n" ++ page_content⟩]

/-- `process_ocr_output` (lines 76-92): for each page call the completion
service on the page's value and key the response by the page's key; the
first completion failure aborts and propagates.  Also returns the number of
completion calls made.  `idx` is the index of the next call in the run. -/
def process_ocr_output (llm : Nat → List Message → Except Err String) (idx : Nat) :
    List Pair → Except Err (List Pair) × Nat
  | [] => (Except.ok [], 0)
  | page :: rest =>
    match llm idx (correction_messages page.2) with
    | Except.error e => (Except.error e, 1)
    | Except.ok response =>
      match process_ocr_output llm (idx + 1) rest with
      | (Except.ok tail, n) => (Except.ok ((page.1, response) :: tail), n + 1)
      | (Except.error e, n) => (Except.error e, n + 1)

/-- Model of `json.dumps(fields, indent=2)` for a flat string-to-string dict. -/
def json_dumps_fields (fields : List Pair) : String :=
  "\x7b\n" ++ ",\n".intercalate (fields.map (fun p => "  \"" ++ p.1 ++ "\": \"" ++ p.2 ++ "\"")) ++ "\n\x7d"

/-- The two-message prompt of `get_metadata` (lines 187-190). -/
def metadata_messages (combined_content : String) (fields : List Pair) : List Message :=
  [⟨"system", "You are a helpful assistant that extracts specific information from document content."⟩,
   ⟨"user", "Extract the following information from this content, filling in the values for each field:\n" ++ combined_content ++ "\n\nFields: " ++ json_dumps_fields fields⟩]

/-- `get_metadata` (lines 179-199): look the record up by id (raising
`ValueError` when absent), space-join the stored `json_data` page values
(defaulting to the empty list), issue the extraction prompt, and parse the
response; a `json.JSONDecodeError` is logged and swallowed, so the function
falls through and returns Python's `None` (modelled as `Except.ok none`). -/
def get_metadata (findOne : Nat → Option Rec) (object_id : Nat)
    (llm : List Message → Except Err String) (parse : String → Option FieldMap)
    (fields : List Pair) : Except Err MetaVal :=
  match findOne object_id with
  | none => Except.error Err.notFound
  | some document =>
    match llm (metadata_messages
        (" ".intercalate ((document.json_data.getD []).map fun page => page.2)) fields) with
    | Except.error e => Except.error e
    | Except.ok response => Except.ok (parse response)

/-- The final-assignment field schema (lines 202-241). -/
def final_assignment_fields : List Pair :=
  [("Record Type 'Z'", ""),
   ("Document Type (Must be populated with one of the valid codes)", ""),
   ("FIPS Code", ""),
   ("MERS Indicator (ASSIGNEE)", ""),
   ("RECORD ID M = MAIN Record (default value for all non-addendum records) A = APN Addendum; D= DOT Addendum", ""),
   ("Assignment Recording Date", ""),
   ("Assignment EFFECTIVE or CONTRACT Date.", ""),
   ("Assignment Document Number (also known as:  Reception No, Instrument No.)", ""),
   ("Assignment Book Number", ""),
   ("Assignment Page Number", ""),
   ("Multiple Page Image Flag", ""),
   ("LPS Image Identifier", ""),
   ("Original Deed of Trust ('DOT') Recording Date", ""),
   ("Original Deed of Trust ('DOT') Contract Date", ""),
   ("Original Deed of Trust('DOT') Document Number", ""),
   ("Original Deed of Trust ('DOT') Book Number", ""),
   ("Original Deed of Trust ('DOT') Page Number", ""),
   ("Original Beneficiary/Lender/Mortgagee/In Favor of/Made By", ""),
   ("Original Loan Amount", ""),
   ("Assignor Name(s) ", ""),
   ("Loan Number", ""),
   ("Assignee(s) (Lender(s) receiving right, title & interest in the Deed of Trust or Mortgage)", ""),
   ("MERS (MIN) Number", ""),
   ("MERS NUMBER  PASS VALIDATION", ""),
   ("Assignee / Pool", ""),
   ("MSP Servicer Number and Loan Number", ""),
   ("Borrower Name(s)/Corporation(s)", ""),
   ("Assessor Parcel Number (APN, PIN, PID)", ""),
   ("Multiple APN Code", ""),
   ("Tax Acct ID", ""),
   ("Property: Full Street Address-  (Look for phrases such as `Commonly known as`)", ""),
   ("Property: Unit #", ""),
   ("Property: City Name", ""),
   ("Property: State", ""),
   ("Property: Zip", ""),
   ("Property: Zip + 4", ""),
   ("Data Entry Date", ""),
   ("Data Entry Operator Code", ""),
   ("Vendor Source Code", "")]

/-- The final-release field schema (lines 245-290). -/
def final_release_fields : List Pair :=
  [("Record Type", ""),
   ("Document Type (Must be populated with one of the valid codes)", ""),
   ("FIPS Code", ""),
   ("RECORD ID M = MAIN Record (default value for all non-addendum records); A = APN Addendum; D= DOT Addendum", ""),
   ("Release Recording Date", ""),
   ("Release Contract Date or Effective Date ", ""),
   ("(Mortgage) Payoff Date (P.O. Date)", ""),
   ("Release Document Number (Instrument, Reception No)", ""),
   ("Release Book Number (Folio, Liber,Volume)", ""),
   ("Release Page Number", ""),
   ("Multiple Page Image Flag", ""),
   ("LPS Image Identifier", ""),
   ("Original Deed of Trust ('DOT') Recording Date", ""),
   ("Original Deed of Trust ('DOT') Contract Date", ""),
   ("Original Deed of Trust('DOT') Document Number", ""),
   ("Original Deed of Trust ('DOT') Book Number", ""),
   ("Original Deed of Trust ('DOT') Page Number", ""),
   ("Original Beneficiary/Lender/Mortgagee", ""),
   ("Original Loan Amount", ""),
   ("Loan Number", ""),
   ("Current Beneficiary/Lender/Mortgagee", ""),
   ("MERS (MIN) Number", ""),
   ("MERS NUMBER  PASS VALIDATION", ""),
   ("MSP Servicer Number and Loan Number", ""),
   ("Current Lender 'Pool'", ""),
   ("Borrower Name(s)/Corporation(s)", ""),
   ("Borrower Mail Full Street Address ", ""),
   ("Borrower Mail Unit", ""),
   ("Borrower Mail City Name", ""),
   ("Borrower Mail State", ""),
   ("Borrower Mail Zip", ""),
   ("Borrower Mail Zip + 4", ""),
   ("Assessor Parcel Number (APN, PID, PIN)", ""),
   ("Multiple APN Code", ""),
   ("Tax Acct ID", ""),
   ("Property: Full Street Address-  (Look for phrases such as `Commonly known as`)", ""),
   ("Property: Unit #", ""),
   ("Property: City Name", ""),
   ("Property: State", ""),
   ("Property: Zip", ""),
   ("Property: Zip + 4", ""),
   ("Data Entry Date", ""),
   ("Data Entry Operator Code", ""),
   ("Vendor Source Code", "")]

/-- `get_metadata_for_final_assignment` (lines 201-242). -/
def get_metadata_for_final_assignment (findOne : Nat → Option Rec) (object_id : Nat)
    (llm : List Message → Except Err String) (parse : String → Option FieldMap) :
    Except Err MetaVal :=
  get_metadata findOne object_id llm parse final_assignment_fields

/-- `get_metadata_for_final_release` (lines 244-291). -/
def get_metadata_for_final_release (findOne : Nat → Option Rec) (object_id : Nat)
    (llm : List Message → Except Err String) (parse : String → Option FieldMap) :
    Except Err MetaVal :=
  get_metadata findOne object_id llm parse final_release_fields

/-- The try/except-retry/except-swallow pattern of lines 131-139 (and
141-148) around one metadata schema: attempt, on exception retry once, on a
second exception log and continue.  Returns the local variable's binding
(`none` = both attempts raised, so the name was never assigned) together
with the number of adapter invocations. -/
def try_metadata (call : Nat → Except Err MetaVal) : Option MetaVal × Nat :=
  match call 0 with
  | Except.ok v => (some v, 1)
  | Except.error _ =>
    match call 1 with
    | Except.ok v => (some v, 2)
    | Except.error _ => (none, 2)

/-- The `collection.find_one({"_id": ObjectId(object_id)})` lookup against
the store holding record `s`. -/
def recFind (s : Rec) : Nat → Option Rec :=
  fun oid => if oid = s.id then some s else none

/-- The `update_data` dict literal and final `update_one` of lines 149-159:
when either metadata local variable was never bound (both of its attempts
raised), evaluating the dict literal raises `NameError`, which the outer
handler of line 160 turns into a `status = failed` write. -/
def metadata_finish (w : World) (s : Rec) (t : List UpdateSet) (tCreated : Bool)
    (ocrCalls downloadCalls : Nat) (cInput : Option (List Pair)) (correctCalls : Nat)
    (fa fr : Option MetaVal × Nat) : RunResult :=
  match fa, fr with
  | (some faV, fan), (some frV, frn) =>
    ⟨applyUpdate s { status := some Status.processed, processed_date := some w.now,
                     final_release := some frV, final_assignment := some faV },
     t ++ [{ status := some Status.processed, processed_date := some w.now,
             final_release := some frV, final_assignment := some faV }],
     tCreated, false, ocrCalls, downloadCalls, cInput, correctCalls, fan, frn⟩
  | (_, fan), (_, frn) =>
    ⟨applyUpdate s failedUpdate, t ++ [failedUpdate],
     tCreated, false, ocrCalls, downloadCalls, cInput, correctCalls, fan, frn⟩

/-- Lines 129-159 of `process_document`: run both metadata extractions with
one retry each (each call re-reads the record, which by now holds the
`json_data` written at line 103/121), then build `update_data` and persist
it. -/
def metadata_phase (doc : Rec) (w : World) (s : Rec) (trace : List UpdateSet)
    (tCreated : Bool) (ocrCalls downloadCalls : Nat) (cInput : Option (List Pair))
    (correctCalls : Nat) : RunResult :=
  metadata_finish w s trace tCreated ocrCalls downloadCalls cInput correctCalls
    (try_metadata fun i =>
      get_metadata_for_final_assignment (recFind s) doc.id (w.faRespond i) w.parse)
    (try_metadata fun i =>
      get_metadata_for_final_release (recFind s) doc.id (w.frRespond i) w.parse)

/-- Lines 104-127 of `process_document`: the branch for a document without a
cached (truthy) `ocr_output`.  A missing `image` key raises `KeyError` to the
outer handler; a download failure likewise.  After the temporary file is
written, the inner `try` runs OCR and correction; the inner `except` turns
any failure into a `status = failed` write and returns, and the `finally`
removes the temporary file on every path through the inner `try`. -/
def ocr_branch (doc : Rec) (w : World) (s0 : Rec) (trace0 : List UpdateSet) : RunResult :=
  match doc.image with
  | none =>
    ⟨applyUpdate s0 failedUpdate, trace0 ++ [failedUpdate], false, false, 0, 0, none, 0, 0, 0⟩
  | some _ =>
    match w.download with
    | Except.error _ =>
      ⟨applyUpdate s0 failedUpdate, trace0 ++ [failedUpdate], false, false, 0, 1, none, 0, 0, 0⟩
    | Except.ok _ =>
      match analyze_document w.ocrService with
      | Except.error _ =>
        ⟨applyUpdate s0 failedUpdate, trace0 ++ [failedUpdate], true, false, 1, 1, none, 0, 0, 0⟩
      | Except.ok extracted =>
        if extracted.isEmpty then
          ⟨applyUpdate s0 failedUpdate, trace0 ++ [failedUpdate], true, false, 1, 1, none, 0, 0, 0⟩
        else
          match process_ocr_output w.llmCorrect 0 extracted with
          | (Except.error _, n) =>
            ⟨applyUpdate s0 failedUpdate, trace0 ++ [failedUpdate], true, false, 1, 1,
             some extracted, n, 0, 0⟩
          | (Except.ok processed, n) =>
            metadata_phase doc w
              (applyUpdate s0 { ocr_output := some extracted, json_data := some processed })
              (trace0 ++ [{ ocr_output := some extracted, json_data := some processed }])
              true 1 1 (some extracted) n

/-- `process_document` (lines 94-162).  The store record starts as the
document the driver fetched; every `$set` update is both applied to it and
recorded in the trace.  `if ocr_output:` takes the cached branch exactly
when the field is present and non-empty (Python truthiness). -/
def process_document (doc : Rec) (w : World) : RunResult :=
  match doc.ocr_output with
  | some (p :: ps) =>
    match process_ocr_output w.llmCorrect 0 (p :: ps) with
    | (Except.error _, n) =>
      ⟨applyUpdate (applyUpdate doc processingUpdate) failedUpdate,
       [processingUpdate, failedUpdate], false, false, 0, 0, some (p :: ps), n, 0, 0⟩
    | (Except.ok processed, n) =>
      metadata_phase doc w
        (applyUpdate (applyUpdate doc processingUpdate)
          { ocr_output := some (p :: ps), json_data := some processed })
        [processingUpdate, { ocr_output := some (p :: ps), json_data := some processed }]
        false 0 0 (some (p :: ps)) n
  | some [] => ocr_branch doc w (applyUpdate doc processingUpdate) [processingUpdate]
  | none => ocr_branch doc w (applyUpdate doc processingUpdate) [processingUpdate]

/-- The status filter of line 164: `status ∈ {notprocessed, processing, failed}`. -/
def pickStatus : Status → Bool
  | Status.notprocessed => true
  | Status.processing => true
  | Status.failed => true
  | Status.processed => false

/-- The sequential loop of lines 165-166, each document run against the
world indexed by its position in the batch. -/
def process_documents_go (w : Nat → World) : Nat → List Rec → List RunResult
  | _, [] => []
  | i, d :: ds => process_document d (w i) :: process_documents_go w (i + 1) ds

/-- `process_documents` (lines 163-166): query the store for documents whose
status is in the re-pickup set and drive each through `process_document`. -/
def process_documents (store : List Rec) (w : Nat → World) : List RunResult :=
  process_documents_go w 0 (store.filter (fun r => pickStatus r.status))

/-- A document with a cached one-page `ocr_output`, used as a concrete input. -/
def exDoc : Rec :=
  ⟨1, Status.notprocessed, some "http://x/doc.png", some [("0", "raw text")],
   none, none, none, none⟩

/-- A document without cached `ocr_output`, used as a concrete input. -/
def exOcrDoc : Rec :=
  ⟨2, Status.failed, some "http://x/doc.png", none, some [("0", "old")], none, none, none⟩

/-- A world where every adapter succeeds. -/
def exWorld : World where
  download := Except.ok ()
  ocrService := Except.ok [⟨1, [⟨"hello"⟩, ⟨"world"⟩]⟩]
  llmCorrect := fun _ _ => Except.ok "clean text"
  faRespond := fun _ _ => Except.ok "fa response"
  frRespond := fun _ _ => Except.ok "fr response"
  parse := fun s => some [("value", s)]
  now := "2026-01-01T00:00:00+00:00"

/-- A world where the OCR service raises. -/
def exOcrFailWorld : World := { exWorld with ocrService := Except.error Err.ocr }

/-- A world where the OCR service returns an empty page sequence. -/
def exOcrEmptyWorld : World := { exWorld with ocrService := Except.ok [] }

/-- A world where every final-assignment extraction attempt raises. -/
def exFaFailWorld : World :=
  { exWorld with faRespond := fun _ _ => Except.error Err.completion }

/-- A world where the first final-assignment extraction attempt raises and
the retry succeeds. -/
def exFaRetryWorld : World :=
  { exWorld with faRespond := fun i _ =>
      if i = 0 then Except.error Err.completion else Except.ok "second attempt" }

/-- A world where every final-release extraction attempt raises. -/
def exFrFailWorld : World :=
  { exWorld with frRespond := fun _ _ => Except.error Err.completion }

/-- A world where the first final-release extraction attempt raises and the
retry succeeds. -/
def exFrRetryWorld : World :=
  { exWorld with frRespond := fun i _ =>
      if i = 0 then Except.error Err.completion else Except.ok "fr second" }

/-- A stored record with no `json_data` at all, used as a concrete input. -/
def exNoJsonDoc : Rec := ⟨3, Status.notprocessed, none, none, none, none, none, none⟩

/-- The combined `ocr_output`/`json_data` update issued for `exDoc` under
`exWorld`, used as a concrete trace element. -/
def exPairUpdate : UpdateSet :=
  { ocr_output := some [("0", "raw text")], json_data := some [("0", "clean text")] }

/-- A concrete two-page OCR service result. -/
def exPages : List SrvPage := [⟨1, [⟨"hello"⟩, ⟨"world"⟩]⟩, ⟨2, [⟨"bye"⟩]⟩]

/-- Classification of one store write of `process_document`: either it is one
of the writes in the prefix `t0`, or it does not set `json_data`, or it sets
`ocr_output` and `json_data` together to a pair produced by a successful
`process_ocr_output` run. -/
def WriteOK (w : World) (t0 : List UpdateSet) (u : UpdateSet) : Prop :=
  u ∈ t0 ∨ u.json_data = none ∨
  ∃ e p, u.ocr_output = some e ∧ u.json_data = some p ∧
    (process_ocr_output w.llmCorrect 0 e).1 = Except.ok p

end DocAnalyzer

namespace DocAnalyzer

theorem setField_none {α : Type} (old : Option α) : setField none old = old := rfl

theorem setField_some {α : Type} (v : α) (old : Option α) : setField (some v) old = some v := rfl

theorem applyUpdate_id (r : Rec) (u : UpdateSet) : (applyUpdate r u).id = r.id := rfl

theorem applyUpdate_image (r : Rec) (u : UpdateSet) : (applyUpdate r u).image = r.image := rfl

/-- Whatever the four metadata attempts return, the final write of
`metadata_phase` sets the status to `processed` or to `failed`. -/
theorem metadata_phase_status (doc : Rec) (w : World) (s : Rec) (t : List UpdateSet)
    (tc : Bool) (oc dc : Nat) (ci : Option (List Pair)) (cc : Nat) :
    (metadata_phase doc w s t tc oc dc ci cc).stored.status = Status.processed ∨
    (metadata_phase doc w s t tc oc dc ci cc).stored.status = Status.failed := by
  unfold metadata_phase metadata_finish
  split
  · left; rfl
  · right; rfl

/-- The metadata phase only appends one status/date/metadata update: it never
touches `ocr_output` or `json_data`, the counters it was handed, or the
temporary-file state. -/
theorem metadata_phase_frame (doc : Rec) (w : World) (s : Rec) (t : List UpdateSet)
    (tc : Bool) (oc dc : Nat) (ci : Option (List Pair)) (cc : Nat) :
    (metadata_phase doc w s t tc oc dc ci cc).tempCreated = tc ∧
    (metadata_phase doc w s t tc oc dc ci cc).tempExists = false ∧
    (metadata_phase doc w s t tc oc dc ci cc).ocrCalls = oc ∧
    (metadata_phase doc w s t tc oc dc ci cc).downloadCalls = dc ∧
    (metadata_phase doc w s t tc oc dc ci cc).correctionInput = ci ∧
    (metadata_phase doc w s t tc oc dc ci cc).correctCalls = cc ∧
    (metadata_phase doc w s t tc oc dc ci cc).stored.id = s.id ∧
    (metadata_phase doc w s t tc oc dc ci cc).stored.image = s.image ∧
    (metadata_phase doc w s t tc oc dc ci cc).stored.ocr_output = s.ocr_output ∧
    (metadata_phase doc w s t tc oc dc ci cc).stored.json_data = s.json_data ∧
    ∃ u, (metadata_phase doc w s t tc oc dc ci cc).trace = t ++ [u] ∧
      u.json_data = none ∧ u.ocr_output = none := by
  unfold metadata_phase metadata_finish
  split
  · exact ⟨rfl, rfl, rfl, rfl, rfl, rfl, rfl, rfl, rfl, rfl, _, rfl, rfl, rfl⟩
  · exact ⟨rfl, rfl, rfl, rfl, rfl, rfl, rfl, rfl, rfl, rfl, _, rfl, rfl, rfl⟩

/-- Every exit of the no-cache branch leaves the status `processed` or `failed`. -/
theorem ocr_branch_status (doc : Rec) (w : World) (s0 : Rec) (t0 : List UpdateSet) :
    (ocr_branch doc w s0 t0).stored.status = Status.processed ∨
    (ocr_branch doc w s0 t0).stored.status = Status.failed := by
  unfold ocr_branch
  split
  · right; rfl
  · split
    · right; rfl
    · split
      · right; rfl
      · split
        · right; rfl
        · split
          · right; rfl
          · exact metadata_phase_status _ _ _ _ _ _ _ _ _

/-- Every exit of `process_document` leaves the status `processed` or `failed`. -/
theorem process_document_status (doc : Rec) (w : World) :
    (process_document doc w).stored.status = Status.processed ∨
    (process_document doc w).stored.status = Status.failed := by
  unfold process_document
  split
  · split
    · right; rfl
    · exact metadata_phase_status _ _ _ _ _ _ _ _ _
  · exact ocr_branch_status _ _ _ _
  · exact ocr_branch_status _ _ _ _

theorem process_documents_go_length (w : Nat → World) (i : Nat) (l : List Rec) :
    (process_documents_go w i l).length = l.length := by
  induction l generalizing i with
  | nil => rfl
  | cons d ds ih => simp [process_documents_go, ih]

theorem process_documents_go_status (w : Nat → World) (i : Nat) (l : List Rec) :
    ∀ res ∈ process_documents_go w i l,
      res.stored.status = Status.processed ∨ res.stored.status = Status.failed := by
  induction l generalizing i with
  | nil => intro res h; cases h
  | cons d ds ih =>
    intro res h
    rw [process_documents_go] at h
    rcases List.mem_cons.mp h with h | h
    · exact h ▸ process_document_status d (w i)
    · exact ih (i + 1) res h

/-- C1: every document whose status is in `{notprocessed, processing, failed}`
at the start of a Batch Driver pass is processed (one run per such document,
so no document's failure aborts the batch), and each run ends with the stored
status exactly `processed` or `failed`, never `processing`. -/
theorem claim_C1 (store : List Rec) (w : Nat → World) :
    (process_documents store w).length
      = (store.filter fun r => pickStatus r.status).length ∧
    ∀ res ∈ process_documents store w,
      res.stored.status = Status.processed ∨ res.stored.status = Status.failed :=
  ⟨process_documents_go_length w 0 _, process_documents_go_status w 0 _⟩

/-- Witness for C1 at a concrete one-document store. -/
theorem claim_C1_witness :
    (process_document exDoc exWorld).stored.status = Status.processed ∨
    (process_document exDoc exWorld).stored.status = Status.failed :=
  (claim_C1 [exDoc] fun _ => exWorld).2 (process_document exDoc exWorld)
    (List.mem_singleton.mpr rfl)

/-- C3: a document whose `ocr_output` is already populated (non-empty) never
triggers the OCR adapter or the image download, and the cached value is
exactly what is handed to `process_ocr_output` as the text-correction input. -/
theorem claim_C3 (doc : Rec) (w : World) (l : List Pair)
    (hc : doc.ocr_output = some l) (hne : l ≠ []) :
    (process_document doc w).ocrCalls = 0 ∧
    (process_document doc w).downloadCalls = 0 ∧
    (process_document doc w).correctionInput = some l := by
  cases l with
  | nil => exact absurd rfl hne
  | cons p ps =>
    unfold process_document
    rw [hc]
    dsimp only
    split
    · exact ⟨rfl, rfl, rfl⟩
    · rename_i processed n heq
      have h := metadata_phase_frame doc w
        (applyUpdate (applyUpdate doc processingUpdate)
          { ocr_output := some (p :: ps), json_data := some processed })
        [processingUpdate, { ocr_output := some (p :: ps), json_data := some processed }]
        false 0 0 (some (p :: ps)) n
      exact ⟨h.2.2.1, h.2.2.2.1, h.2.2.2.2.1⟩

/-- Witness for C3 at a concrete cached document. -/
theorem claim_C3_witness :
    (process_document exDoc exWorld).ocrCalls = 0 ∧
    (process_document exDoc exWorld).downloadCalls = 0 ∧
    (process_document exDoc exWorld).correctionInput = some [("0", "raw text")] :=
  claim_C3 exDoc exWorld [("0", "raw text")] rfl (List.cons_ne_nil _ _)

/-- C10: on the cached-OCR branch the `ocr_output` written back is exactly the
cached value, and the record's identity, `image` and `ocr_output` are
preserved — every update that sets `ocr_output` sets it to the cached list. -/
theorem claim_C10 (doc : Rec) (w : World) (l : List Pair)
    (hc : doc.ocr_output = some l) (hne : l ≠ []) :
    (process_document doc w).stored.ocr_output = some l ∧
    (process_document doc w).stored.ocr_output = doc.ocr_output ∧
    (process_document doc w).stored.id = doc.id ∧
    (process_document doc w).stored.image = doc.image ∧
    ∀ u ∈ (process_document doc w).trace, ∀ o, u.ocr_output = some o → o = l := by
  cases l with
  | nil => exact absurd rfl hne
  | cons p ps =>
    obtain ⟨i, st, img, oo, jd, pd, fa, fr⟩ := doc
    dsimp only at hc ⊢
    subst hc
    unfold process_document
    dsimp only
    split
    · refine ⟨rfl, rfl, rfl, rfl, ?_⟩
      intro u hu o ho
      rcases List.mem_pair.mp hu with h | h <;> subst h <;>
        simp [processingUpdate, failedUpdate] at ho
    · rename_i processed n heq
      have h := metadata_phase_frame
        ⟨i, st, img, some (p :: ps), jd, pd, fa, fr⟩ w
        (applyUpdate
          (applyUpdate ⟨i, st, img, some (p :: ps), jd, pd, fa, fr⟩ processingUpdate)
          { ocr_output := some (p :: ps), json_data := some processed })
        [processingUpdate, { ocr_output := some (p :: ps), json_data := some processed }]
        false 0 0 (some (p :: ps)) n
      obtain ⟨u', htr, -, hou'⟩ := h.2.2.2.2.2.2.2.2.2.2
      refine ⟨h.2.2.2.2.2.2.2.2.1, h.2.2.2.2.2.2.2.2.1, h.2.2.2.2.2.2.1,
              h.2.2.2.2.2.2.2.1, ?_⟩
      intro u hu o ho
      rw [htr] at hu
      rcases List.mem_append.mp hu with h' | h'
      · rcases List.mem_pair.mp h' with h' | h' <;> subst h'
        · simp [processingUpdate] at ho
        · exact (Option.some_injective _ ho.symm).symm ▸ rfl
      · rcases List.mem_singleton.mp h' with h'
        subst h'
        rw [hou'] at ho
        cases ho

/-- Witness for C10 at a concrete cached document. -/
theorem claim_C10_witness :
    (process_document exDoc exWorld).stored.ocr_output = some [("0", "raw text")] ∧
    (process_document exDoc exWorld).stored.image = exDoc.image :=
  ⟨(claim_C10 exDoc exWorld [("0", "raw text")] rfl (List.cons_ne_nil _ _)).1,
   (claim_C10 exDoc exWorld [("0", "raw text")] rfl (List.cons_ne_nil _ _)).2.2.2.1⟩

/-- C4: on the OCR path (no truthy cached `ocr_output`, image present,
download succeeded) the temporary file is created and is removed again
before `process_document` returns, on every outcome of the OCR/correction
step; and after an OCR adapter failure the stored status is `failed`. -/
theorem claim_C4 (doc : Rec) (w : World) (url : String)
    (hnc : doc.ocr_output = none ∨ doc.ocr_output = some [])
    (himg : doc.image = some url)
    (hdl : w.download = Except.ok ()) :
    (process_document doc w).tempCreated = true ∧
    (process_document doc w).tempExists = false ∧
    ∀ e, w.ocrService = Except.error e →
      (process_document doc w).stored.status = Status.failed := by
  have hb : process_document doc w
      = ocr_branch doc w (applyUpdate doc processingUpdate) [processingUpdate] := by
    rcases hnc with h | h <;> (unfold process_document; rw [h])
  rw [hb]
  unfold ocr_branch
  rw [himg, hdl]
  dsimp only
  split
  · exact ⟨rfl, rfl, fun _ _ => rfl⟩
  · rename_i extracted heq
    split
    · exact ⟨rfl, rfl, fun _ _ => rfl⟩
    · split
      · exact ⟨rfl, rfl, fun _ _ => rfl⟩
      · rename_i processed n hpo
        have h := metadata_phase_frame doc w
          (applyUpdate (applyUpdate doc processingUpdate)
            { ocr_output := some extracted, json_data := some processed })
          [processingUpdate, { ocr_output := some extracted, json_data := some processed }]
          true 1 1 (some extracted) n
        refine ⟨h.1, h.2.1, ?_⟩
        intro e he
        rw [he] at heq
        exact absurd heq (by simp [analyze_document])

/-- Witness for C4: OCR adapter failure on a concrete uncached document. -/
theorem claim_C4_witness :
    (process_document exOcrDoc exOcrFailWorld).tempCreated = true ∧
    (process_document exOcrDoc exOcrFailWorld).tempExists = false ∧
    (process_document exOcrDoc exOcrFailWorld).stored.status = Status.failed :=
  ⟨(claim_C4 exOcrDoc exOcrFailWorld "http://x/doc.png" (Or.inl rfl) rfl rfl).1,
   (claim_C4 exOcrDoc exOcrFailWorld "http://x/doc.png" (Or.inl rfl) rfl rfl).2.1,
   (claim_C4 exOcrDoc exOcrFailWorld "http://x/doc.png" (Or.inl rfl) rfl rfl).2.2 Err.ocr rfl⟩

/-- C5: when the OCR adapter returns an empty page sequence the document is
marked `failed` and processing stops: the only writes are the `processing`
and `failed` status updates, `json_data` and `ocr_output` are untouched,
text correction is never invoked, and no metadata extraction happens. -/
theorem claim_C5 (doc : Rec) (w : World) (url : String)
    (hnc : doc.ocr_output = none ∨ doc.ocr_output = some [])
    (himg : doc.image = some url)
    (hdl : w.download = Except.ok ())
    (hocr : w.ocrService = Except.ok []) :
    (process_document doc w).stored.status = Status.failed ∧
    (process_document doc w).trace = [processingUpdate, failedUpdate] ∧
    (process_document doc w).stored.json_data = doc.json_data ∧
    (process_document doc w).stored.ocr_output = doc.ocr_output ∧
    (process_document doc w).correctionInput = none ∧
    (process_document doc w).correctCalls = 0 ∧
    (process_document doc w).faCalls = 0 ∧
    (process_document doc w).frCalls = 0 := by
  have hb : process_document doc w
      = ocr_branch doc w (applyUpdate doc processingUpdate) [processingUpdate] := by
    rcases hnc with h | h <;> (unfold process_document; rw [h])
  rw [hb]
  unfold ocr_branch
  rw [himg, hdl, hocr]
  exact ⟨rfl, rfl, rfl, rfl, rfl, rfl, rfl, rfl⟩

/-- A successful `process_ocr_output` run returns one entry per input page,
in order, carrying the same page-index keys. -/
theorem process_ocr_output_keys (llm : Nat → List Message → Except Err String)
    (i : Nat) (l j : List Pair)
    (h : (process_ocr_output llm i l).1 = Except.ok j) :
    j.map Prod.fst = l.map Prod.fst := by
  induction l generalizing i j with
  | nil =>
    rw [process_ocr_output] at h
    injection h with h
    subst h
    rfl
  | cons p rest ih =>
    rw [process_ocr_output] at h
    cases hl : llm i (correction_messages p.2) with
    | error e => rw [hl] at h; cases h
    | ok response =>
      rw [hl] at h
      dsimp only at h
      rcases hrec : process_ocr_output llm (i + 1) rest with ⟨res, n⟩
      rw [hrec] at h
      cases res with
      | error e => cases h
      | ok tail =>
        dsimp only at h
        injection h with h
        subst h
        simpa using ih (i + 1) tail (by rw [hrec])

/-- Every write of the no-cache branch is in the prefix, writes no
`json_data`, or is an aligned `ocr_output`/`json_data` pair. -/
theorem ocr_branch_trace (doc : Rec) (w : World) (s0 : Rec) (t0 : List UpdateSet) :
    ∀ u ∈ (ocr_branch doc w s0 t0).trace, WriteOK w t0 u := by
  have hterm : ∀ u ∈ t0 ++ [failedUpdate], WriteOK w t0 u := by
    intro u hu
    rcases List.mem_append.mp hu with h | h
    · exact Or.inl h
    · rw [List.mem_singleton.mp h]; exact Or.inr (Or.inl rfl)
  unfold ocr_branch
  split
  · exact hterm
  · split
    · exact hterm
    · split
      · exact hterm
      · split
        · exact hterm
        · split
          · exact hterm
          · rename_i extracted heq hne x processed n hpo
            have h := metadata_phase_frame doc w
              (applyUpdate s0 { ocr_output := some extracted, json_data := some processed })
              (t0 ++ [{ ocr_output := some extracted, json_data := some processed }])
              true 1 1 (some extracted) n
            obtain ⟨u', htr, hju', -⟩ := h.2.2.2.2.2.2.2.2.2.2
            intro u hu
            rw [htr] at hu
            rcases List.mem_append.mp hu with h' | h'
            · rcases List.mem_append.mp h' with h' | h'
              · exact Or.inl h'
              · rw [List.mem_singleton.mp h']
                exact Or.inr (Or.inr ⟨extracted, processed, rfl, rfl, by rw [hpo]⟩)
            · rw [List.mem_singleton.mp h']
              exact Or.inr (Or.inl hju')

/-- Every write of `process_document` writes no `json_data` or an aligned
`ocr_output`/`json_data` pair. -/
theorem process_document_trace (doc : Rec) (w : World) :
    ∀ u ∈ (process_document doc w).trace, WriteOK w [processingUpdate] u := by
  unfold process_document
  split
  · split
    · intro u hu
      rcases List.mem_pair.mp hu with h | h <;> rw [h]
      · exact Or.inl (List.mem_singleton.mpr rfl)
      · exact Or.inr (Or.inl rfl)
    · rename_i p ps hsc x processed n hpo
      have h := metadata_phase_frame doc w
        (applyUpdate (applyUpdate doc processingUpdate)
          { ocr_output := some (p :: ps), json_data := some processed })
        [processingUpdate, { ocr_output := some (p :: ps), json_data := some processed }]
        false 0 0 (some (p :: ps)) n
      obtain ⟨u', htr, hju', -⟩ := h.2.2.2.2.2.2.2.2.2.2
      intro u hu
      rw [htr] at hu
      rcases List.mem_append.mp hu with h' | h'
      · rcases List.mem_pair.mp h' with h' | h' <;> rw [h']
        · exact Or.inl (List.mem_singleton.mpr rfl)
        · exact Or.inr (Or.inr ⟨p :: ps, processed, rfl, rfl, by rw [hpo]⟩)
      · rw [List.mem_singleton.mp h']
        exact Or.inr (Or.inl hju')
  · exact ocr_branch_trace doc w _ _
  · exact ocr_branch_trace doc w _ _

/-- C6: whenever `process_document` persists `json_data`, it persists
`ocr_output` in the same update, with one `json_data` entry per `ocr_output`
entry, in order, carrying the same page-index key positionally. -/
theorem claim_C6 (doc : Rec) (w : World) (u : UpdateSet)
    (hu : u ∈ (process_document doc w).trace) (j : List Pair)
    (hj : u.json_data = some j) :
    ∃ o, u.ocr_output = some o ∧ j.map Prod.fst = o.map Prod.fst ∧
      j.length = o.length := by
  rcases process_document_trace doc w u hu with h | h | ⟨e, p, ho, hjp, hok⟩
  · rw [List.mem_singleton.mp h] at hj
    simp [processingUpdate] at hj
  · rw [h] at hj; cases hj
  · rw [hjp] at hj
    injection hj with hjj
    subst hjj
    have hkeys := process_ocr_output_keys w.llmCorrect 0 e p hok
    refine ⟨e, ho, hkeys, ?_⟩
    have hlen := congrArg List.length hkeys
    simpa using hlen

/-- Witness for C6 at the pair update issued for a concrete cached document. -/
theorem claim_C6_witness :
    ∃ o, exPairUpdate.ocr_output = some o ∧
      ([("0", "clean text")] : List Pair).map Prod.fst = o.map Prod.fst ∧
      ([("0", "clean text")] : List Pair).length = o.length :=
  claim_C6 exDoc exWorld exPairUpdate (by decide) [("0", "clean text")] rfl

/-- C7: `get_metadata` raises the not-found error exactly when the document
ID does not resolve to a stored record (as long as the completion adapter
itself never raises that error); and when the record exists but the
completion response fails JSON parsing, `get_metadata` does not raise — it
returns Python's `None` instead of a field map. -/
theorem claim_C7 (findOne : Nat → Option Rec) (object_id : Nat)
    (llm : List Message → Except Err String) (parse : String → Option FieldMap)
    (fields : List Pair)
    (hllm : ∀ msgs, llm msgs ≠ Except.error Err.notFound) :
    (get_metadata findOne object_id llm parse fields = Except.error Err.notFound ↔
      findOne object_id = none) ∧
    ∀ document, findOne object_id = some document →
      ∀ s, llm (metadata_messages
            (" ".intercalate ((document.json_data.getD []).map fun page => page.2)) fields)
          = Except.ok s →
        parse s = none →
        get_metadata findOne object_id llm parse fields = Except.ok none := by
  constructor
  · cases hf : findOne object_id with
    | none =>
      constructor
      · intro _; rfl
      · intro _; unfold get_metadata; rw [hf]
    | some document =>
      constructor
      · intro h
        unfold get_metadata at h
        rw [hf] at h
        dsimp only at h
        cases hl : llm (metadata_messages
            (" ".intercalate ((document.json_data.getD []).map fun page => page.2)) fields) with
        | error e =>
          rw [hl] at h
          injection h with h
          exact absurd (h ▸ hl) (hllm _)
        | ok s => rw [hl] at h; cases h
      · intro h
        exact Option.noConfusion h
  · intro document hf s hl hp
    unfold get_metadata
    rw [hf]
    dsimp only
    rw [hl]
    dsimp only
    rw [hp]

/-- Witness for C7: a missing record raises not-found; an unparsable
completion response yields `None` without raising. -/
theorem claim_C7_witness :
    get_metadata (fun _ => none) 4 (fun _ => Except.ok "not json") (fun _ => some [])
      final_release_fields = Except.error Err.notFound ∧
    get_metadata (recFind exNoJsonDoc) exNoJsonDoc.id (fun _ => Except.ok "not json")
      (fun _ => none) final_release_fields = Except.ok none :=
  ⟨((claim_C7 (fun _ => none) 4 (fun _ => Except.ok "not json") (fun _ => some [])
      final_release_fields (fun _ h => Except.noConfusion h)).1).mpr rfl,
   (claim_C7 (recFind exNoJsonDoc) exNoJsonDoc.id (fun _ => Except.ok "not json")
      (fun _ => none) final_release_fields (fun _ h => Except.noConfusion h)).2
     exNoJsonDoc rfl "not json" rfl rfl⟩

/-- C8: on a successful OCR analysis whose pages are numbered consecutively
from 1, the adapter output has one entry per page, in order, keyed by the
zero-based page index rendered as a string, with the page text formed by
joining the recognized lines' content with single spaces. -/
theorem claim_C8 (pages : List SrvPage)
    (hnum : ∀ i (h : i < pages.length), pages[i].page_number = i + 1) :
    analyze_document (Except.ok pages) = Except.ok (extract_pages pages) ∧
    (extract_pages pages).length = pages.length ∧
    ∀ i (h : i < pages.length),
      (extract_pages pages)[i]? =
        some (toString i, " ".intercalate (pages[i].lines.map fun l => l.content)) := by
  refine ⟨rfl, by simp [extract_pages], ?_⟩
  intro i h
  rw [extract_pages, List.getElem?_map, List.getElem?_eq_getElem h]
  dsimp only [Option.map_some']
  rw [hnum i h]
  simp

/-- Witness for C8 at a concrete two-page service result. -/
theorem claim_C8_witness :
    (extract_pages exPages).length = exPages.length ∧
    (extract_pages exPages)[0]? = some ("0", "hello world") :=
  ⟨(claim_C8 exPages (by decide)).2.1,
   (claim_C8 exPages (by decide)).2.2 0 (by decide)⟩

/-- C9: a stored record with absent or empty `json_data` does not make
`get_metadata` fail: the page list defaults to empty, the combined content
is the empty string, the extraction prompt is still issued, and the caller
receives whatever the completion response parses to. -/
theorem claim_C9 (findOne : Nat → Option Rec) (object_id : Nat)
    (llm : List Message → Except Err String) (parse : String → Option FieldMap)
    (fields : List Pair) (document : Rec)
    (hf : findOne object_id = some document)
    (hjd : document.json_data = none ∨ document.json_data = some []) :
    get_metadata findOne object_id llm parse fields =
      match llm (metadata_messages "" fields) with
      | Except.error e => Except.error e
      | Except.ok s => Except.ok (parse s) := by
  unfold get_metadata
  rw [hf]
  dsimp only
  have hcc : " ".intercalate ((document.json_data.getD []).map fun page => page.2) = "" := by
    rcases hjd with h | h <;> rw [h] <;> rfl
  rw [hcc]

theorem try_metadata_ok (call : Nat → Except Err MetaVal) (v : MetaVal)
    (h0 : call 0 = Except.ok v) : try_metadata call = (some v, 1) := by
  unfold try_metadata
  rw [h0]

theorem try_metadata_err_ok (call : Nat → Except Err MetaVal) (e : Err) (v : MetaVal)
    (h0 : call 0 = Except.error e) (h1 : call 1 = Except.ok v) :
    try_metadata call = (some v, 2) := by
  unfold try_metadata
  rw [h0]
  dsimp only
  rw [h1]

theorem try_metadata_err_err (call : Nat → Except Err MetaVal) (e0 e1 : Err)
    (h0 : call 0 = Except.error e0) (h1 : call 1 = Except.error e1) :
    try_metadata call = (none, 2) := by
  unfold try_metadata
  rw [h0]
  dsimp only
  rw [h1]

/-- `get_metadata` against a store whose record the ID resolves to, when the
completion adapter always raises `e`: the exception propagates. -/
theorem get_metadata_const_err (s : Rec) (oid : Nat)
    (llm : List Message → Except Err String) (parse : String → Option FieldMap)
    (fields : List Pair) (e : Err) (hid : oid = s.id)
    (hllm : ∀ msgs, llm msgs = Except.error e) :
    get_metadata (recFind s) oid llm parse fields = Except.error e := by
  unfold get_metadata recFind
  rw [if_pos hid]
  dsimp only
  rw [hllm]

/-- `get_metadata` against a store whose record the ID resolves to, when the
completion adapter always answers `resp`: the parse of `resp` is returned. -/
theorem get_metadata_const_ok (s : Rec) (oid : Nat)
    (llm : List Message → Except Err String) (parse : String → Option FieldMap)
    (fields : List Pair) (resp : String) (hid : oid = s.id)
    (hllm : ∀ msgs, llm msgs = Except.ok resp) :
    get_metadata (recFind s) oid llm parse fields = Except.ok (parse resp) := by
  unfold get_metadata recFind
  rw [if_pos hid]
  dsimp only
  rw [hllm]

/-- On the cached branch with a successful correction run, `process_document`
reduces to the metadata phase over the record holding the new `json_data`. -/
theorem process_document_cached_ok (doc : Rec) (w : World) (p : Pair) (ps : List Pair)
    (hc : doc.ocr_output = some (p :: ps)) (j : List Pair) (n : Nat)
    (hcorr : process_ocr_output w.llmCorrect 0 (p :: ps) = (Except.ok j, n)) :
    process_document doc w = metadata_phase doc w
      (applyUpdate (applyUpdate doc processingUpdate)
        { ocr_output := some (p :: ps), json_data := some j })
      [processingUpdate, { ocr_output := some (p :: ps), json_data := some j }]
      false 0 0 (some (p :: ps)) n := by
  unfold process_document
  rw [hc]
  dsimp only
  rw [hcorr]

/-- C2 counterexample: for a cached one-page document whose correction
succeeds, when both final-assignment extraction attempts raise, the adapter
is invoked exactly twice but the stored status is `failed`, not `processed`
(building `update_data` hits the unbound local and the outer handler fires)
— refuting "processing continues regardless, so the document is still
marked processed". -/
theorem claim_C2_counterexample :
    (process_document exDoc exFaFailWorld).faCalls = 2 ∧
    (process_document exDoc exFaFailWorld).stored.status = Status.failed ∧
    (process_document exDoc exFaFailWorld).stored.status ≠ Status.processed := by
  decide

/-- C2 (amended): for each of the two metadata-extraction calls in
`process_document` (final-assignment schema and final-release schema), a
raising first call is retried exactly once — on a fail-then-succeed run the
stored field map (`final_assignment` resp. `final_release`) equals the
second attempt's result and the adapter was invoked exactly twice for that
schema — but if the retry also raises, the corresponding local variable is
left unbound, so building `update_data` raises and the outer handler marks
the document `failed`: it is not marked `processed`. -/
theorem claim_C2_amended (doc : Rec) (w : World) (l j : List Pair) (n : Nat)
    (hc : doc.ocr_output = some l) (hne : l ≠ [])
    (hcorr : process_ocr_output w.llmCorrect 0 l = (Except.ok j, n)) :
    (∀ e0 s s2, (∀ msgs, w.faRespond 0 msgs = Except.error e0) →
      (∀ msgs, w.faRespond 1 msgs = Except.ok s) →
      (∀ msgs, w.frRespond 0 msgs = Except.ok s2) →
      (process_document doc w).faCalls = 2 ∧
      (process_document doc w).stored.final_assignment = some (w.parse s) ∧
      (process_document doc w).stored.status = Status.processed) ∧
    (∀ e0 e1, (∀ msgs, w.faRespond 0 msgs = Except.error e0) →
      (∀ msgs, w.faRespond 1 msgs = Except.error e1) →
      (process_document doc w).faCalls = 2 ∧
      (process_document doc w).stored.status = Status.failed ∧
      (process_document doc w).stored.status ≠ Status.processed) ∧
    (∀ e0 s s2, (∀ msgs, w.faRespond 0 msgs = Except.ok s2) →
      (∀ msgs, w.frRespond 0 msgs = Except.error e0) →
      (∀ msgs, w.frRespond 1 msgs = Except.ok s) →
      (process_document doc w).frCalls = 2 ∧
      (process_document doc w).stored.final_release = some (w.parse s) ∧
      (process_document doc w).stored.status = Status.processed) ∧
    (∀ e0 e1, (∀ msgs, w.frRespond 0 msgs = Except.error e0) →
      (∀ msgs, w.frRespond 1 msgs = Except.error e1) →
      (process_document doc w).frCalls = 2 ∧
      (process_document doc w).stored.status = Status.failed ∧
      (process_document doc w).stored.status ≠ Status.processed) := by
  cases l with
  | nil => exact absurd rfl hne
  | cons p ps =>
    have hred := process_document_cached_ok doc w p ps hc j n hcorr
    have hid : doc.id = (applyUpdate (applyUpdate doc processingUpdate)
        { ocr_output := some (p :: ps), json_data := some j }).id := rfl
    refine ⟨?_, ?_, ?_, ?_⟩
    · intro e0 s s2 hfa0 hfa1 hfr0
      have hfa := try_metadata_err_ok
        (fun i => get_metadata_for_final_assignment
          (recFind (applyUpdate (applyUpdate doc processingUpdate)
            { ocr_output := some (p :: ps), json_data := some j }))
          doc.id (w.faRespond i) w.parse)
        e0 (w.parse s)
        (get_metadata_const_err _ _ _ _ _ e0 hid (hfa0))
        (get_metadata_const_ok _ _ _ _ _ s hid (hfa1))
      have hfr := try_metadata_ok
        (fun i => get_metadata_for_final_release
          (recFind (applyUpdate (applyUpdate doc processingUpdate)
            { ocr_output := some (p :: ps), json_data := some j }))
          doc.id (w.frRespond i) w.parse)
        (w.parse s2)
        (get_metadata_const_ok _ _ _ _ _ s2 hid (hfr0))
      rw [hred]
      unfold metadata_phase
      rw [hfa, hfr]
      exact ⟨rfl, rfl, rfl⟩
    · intro e0 e1 hfa0 hfa1
      have hfa := try_metadata_err_err
        (fun i => get_metadata_for_final_assignment
          (recFind (applyUpdate (applyUpdate doc processingUpdate)
            { ocr_output := some (p :: ps), json_data := some j }))
          doc.id (w.faRespond i) w.parse)
        e0 e1
        (get_metadata_const_err _ _ _ _ _ e0 hid (hfa0))
        (get_metadata_const_err _ _ _ _ _ e1 hid (hfa1))
      rw [hred]
      unfold metadata_phase
      rw [hfa]
      unfold metadata_finish
      refine ⟨rfl, rfl, fun hcon => ?_⟩
      exact Status.noConfusion hcon
    · intro e0 s s2 hfa0 hfr0 hfr1
      have hfa := try_metadata_ok
        (fun i => get_metadata_for_final_assignment
          (recFind (applyUpdate (applyUpdate doc processingUpdate)
            { ocr_output := some (p :: ps), json_data := some j }))
          doc.id (w.faRespond i) w.parse)
        (w.parse s2)
        (get_metadata_const_ok _ _ _ _ _ s2 hid (hfa0))
      have hfr := try_metadata_err_ok
        (fun i => get_metadata_for_final_release
          (recFind (applyUpdate (applyUpdate doc processingUpdate)
            { ocr_output := some (p :: ps), json_data := some j }))
          doc.id (w.frRespond i) w.parse)
        e0 (w.parse s)
        (get_metadata_const_err _ _ _ _ _ e0 hid (hfr0))
        (get_metadata_const_ok _ _ _ _ _ s hid (hfr1))
      rw [hred]
      unfold metadata_phase
      rw [hfa, hfr]
      exact ⟨rfl, rfl, rfl⟩
    · intro e0 e1 hfr0 hfr1
      have hfr := try_metadata_err_err
        (fun i => get_metadata_for_final_release
          (recFind (applyUpdate (applyUpdate doc processingUpdate)
            { ocr_output := some (p :: ps), json_data := some j }))
          doc.id (w.frRespond i) w.parse)
        e0 e1
        (get_metadata_const_err _ _ _ _ _ e0 hid (hfr0))
        (get_metadata_const_err _ _ _ _ _ e1 hid (hfr1))
      rw [hred]
      unfold metadata_phase
      rw [hfr]
      rcases htm : try_metadata
        (fun i => get_metadata_for_final_assignment
          (recFind (applyUpdate (applyUpdate doc processingUpdate)
            { ocr_output := some (p :: ps), json_data := some j }))
          doc.id (w.faRespond i) w.parse) with ⟨fa1, fan⟩
      unfold metadata_finish
      cases fa1 <;> exact ⟨rfl, rfl, fun hcon => Status.noConfusion hcon⟩

/-- Witness for the amended C2, one scenario per conjunct: fail-then-succeed
stores the second attempt's parse and processes the document, fail-twice
ends `failed` — for the final-assignment schema and for the final-release
schema alike. -/
theorem claim_C2_amended_witness :
    ((process_document exDoc exFaRetryWorld).faCalls = 2 ∧
     (process_document exDoc exFaRetryWorld).stored.final_assignment
       = some (exFaRetryWorld.parse "second attempt") ∧
     (process_document exDoc exFaRetryWorld).stored.status = Status.processed) ∧
    ((process_document exDoc exFaFailWorld).faCalls = 2 ∧
     (process_document exDoc exFaFailWorld).stored.status = Status.failed ∧
     (process_document exDoc exFaFailWorld).stored.status ≠ Status.processed) ∧
    ((process_document exDoc exFrRetryWorld).frCalls = 2 ∧
     (process_document exDoc exFrRetryWorld).stored.final_release
       = some (exFrRetryWorld.parse "fr second") ∧
     (process_document exDoc exFrRetryWorld).stored.status = Status.processed) ∧
    ((process_document exDoc exFrFailWorld).frCalls = 2 ∧
     (process_document exDoc exFrFailWorld).stored.status = Status.failed ∧
     (process_document exDoc exFrFailWorld).stored.status ≠ Status.processed) :=
  ⟨(claim_C2_amended exDoc exFaRetryWorld [("0", "raw text")] [("0", "clean text")] 1
      rfl (List.cons_ne_nil _ _) rfl).1 Err.completion "second attempt" "fr response"
      (fun _ => rfl) (fun _ => rfl) (fun _ => rfl),
   (claim_C2_amended exDoc exFaFailWorld [("0", "raw text")] [("0", "clean text")] 1
      rfl (List.cons_ne_nil _ _) rfl).2.1 Err.completion Err.completion
      (fun _ => rfl) (fun _ => rfl),
   (claim_C2_amended exDoc exFrRetryWorld [("0", "raw text")] [("0", "clean text")] 1
      rfl (List.cons_ne_nil _ _) rfl).2.2.1 Err.completion "fr second" "fa response"
      (fun _ => rfl) (fun _ => rfl) (fun _ => rfl),
   (claim_C2_amended exDoc exFrFailWorld [("0", "raw text")] [("0", "clean text")] 1
      rfl (List.cons_ne_nil _ _) rfl).2.2.2 Err.completion Err.completion
      (fun _ => rfl) (fun _ => rfl)⟩

/-- Witness for C9: a record with no `json_data` still reaches the
completion call and returns its parse result. -/
theorem claim_C9_witness :
    get_metadata (fun _ => some exNoJsonDoc) 3 (fun _ => Except.ok "not json")
      (fun _ => none) final_assignment_fields = Except.ok none :=
  (claim_C9 (fun _ => some exNoJsonDoc) 3 (fun _ => Except.ok "not json") (fun _ => none)
    final_assignment_fields exNoJsonDoc rfl (Or.inl rfl)).trans rfl

/-- Witness for C5: empty OCR result on a concrete uncached document. -/
theorem claim_C5_witness :
    (process_document exOcrDoc exOcrEmptyWorld).stored.status = Status.failed ∧
    (process_document exOcrDoc exOcrEmptyWorld).trace = [processingUpdate, failedUpdate] ∧
    (process_document exOcrDoc exOcrEmptyWorld).stored.json_data = exOcrDoc.json_data ∧
    (process_document exOcrDoc exOcrEmptyWorld).stored.ocr_output = exOcrDoc.ocr_output ∧
    (process_document exOcrDoc exOcrEmptyWorld).correctionInput = none ∧
    (process_document exOcrDoc exOcrEmptyWorld).correctCalls = 0 ∧
    (process_document exOcrDoc exOcrEmptyWorld).faCalls = 0 ∧
    (process_document exOcrDoc exOcrEmptyWorld).frCalls = 0 :=
  claim_C5 exOcrDoc exOcrEmptyWorld "http://x/doc.png" (Or.inl rfl) rfl rfl rfl

end DocAnalyzer
